import Mathlib

/- Verification of the OpsRamp MCP Python client (client/python/src/ormcp:
   utils.py, exceptions.py, session.py).  The Python code is shallowly
   embedded: strings are Lean strings, JSON values are an inductive type,
   and the Python dict / str / re operations the client uses are modelled
   explicitly on lists of characters so that everything is executable. -/

/-- Python whitespace test restricted to the ASCII characters space, tab,
LF, CR, VT, FF: the set matched by the regex class backslash-s and by
str.strip for the payloads this client handles. -/
def pySpace (c : Char) : Bool :=
  c = ' ' || c = '\t' || c = '\n' || c = '\r' || c = '\x0b' || c = '\x0c'

/-- JSON inter-token whitespace (RFC 8259 / CPython json): space, tab, LF, CR. -/
def jsonWs (c : Char) : Bool :=
  c = ' ' || c = '\t' || c = '\n' || c = '\r'

/-- Skip JSON inter-token whitespace. -/
def skipWsL (cs : List Char) : List Char := cs.dropWhile jsonWs

/-- Python str.strip() on a character list (both ends). -/
def stripList (xs : List Char) : List Char :=
  ((xs.dropWhile pySpace).reverse.dropWhile pySpace).reverse

/-- Python str.strip(). -/
def pyStrip (s : String) : String := String.mk (stripList s.data)

/-- Python str.startswith. -/
def pyStartswith (s pre : String) : Bool := pre.data.isPrefixOf s.data

/-- Python substring containment (needle in haystack) on character lists. -/
def subListAt (pat : List Char) : List Char → Bool
  | [] => pat.isEmpty
  | c :: cs => pat.isPrefixOf (c :: cs) || subListAt pat cs

/-- Python substring containment: pat in s. -/
def strContains (s pat : String) : Bool := subListAt pat.data s.data

/-- Worker for Python str.split(sep) with a non-empty separator; the current
chunk is accumulated in reverse.  Recursion is structural on a fuel argument
so that the definition reduces in the kernel; fuel equal to the length of
the scanned list always suffices because every step consumes a character. -/
def pySplitAux (pat : List Char) : Nat → List Char → List Char → List (List Char)
  | _, [], acc => [acc.reverse]
  | 0, cs, acc => [acc.reverse ++ cs]
  | fuel + 1, c :: cs, acc =>
    if pat.isPrefixOf (c :: cs) then
      acc.reverse :: pySplitAux pat fuel ((c :: cs).drop pat.length) []
    else
      pySplitAux pat fuel cs (c :: acc)

/-- Python str.split(sep) for a non-empty separator. -/
def pySplit (s : String) (sep : String) : List (List Char) :=
  pySplitAux sep.data s.data.length s.data []

/-- Characters after the first occurrence of pat (garbage if none exists;
only used under a containment guard). -/
def afterFirst (pat : List Char) : List Char → List Char
  | [] => []
  | c :: cs => if pat.isPrefixOf (c :: cs) then (c :: cs).drop pat.length else afterFirst pat cs

/-- Prefix of a list up to (excluding) the first occurrence of pat. -/
def takeUntilOcc (pat : List Char) : List Char → List Char
  | [] => []
  | c :: cs => if pat.isPrefixOf (c :: cs) then [] else c :: takeUntilOcc pat cs

/-- JSON values as produced by Python json.loads.  Numbers are represented
as exact rationals; object fields keep their textual order and a duplicated
key is resolved to its last binding on lookup, matching Python dict
construction. -/
inductive Json where
  | null : Json
  | bool (b : Bool) : Json
  | num (q : Rat) : Json
  | str (s : String) : Json
  | arr (elems : List Json) : Json
  | obj (fields : List (String × Json)) : Json

/-- Python dict lookup over the field list of a JSON object: the last
binding of a duplicated key wins, as when a dict is built from repeated
keys. -/
def dictGet (fields : List (String × Json)) (k : String) : Option Json :=
  fields.foldl (fun acc kv => if kv.1 = k then some kv.2 else acc) none

/-- Python str() of a JSON value, as applied by parse_session_id_from_sse to
the field it extracts.  Session-id payloads are strings; the rendering of
non-integer numbers and of containers is approximate and never exercised. -/
def pyStr : Json → String
  | Json.null => "None"
  | Json.bool true => "True"
  | Json.bool false => "False"
  | Json.num q => if q.den = 1 then toString q.num else toString q
  | Json.str s => s
  | Json.arr _ => "[...]"
  | Json.obj _ => "\x7b...\x7d"

/-- ASCII decimal digit test. -/
def isDigitCh (c : Char) : Bool := '0' ≤ c && c ≤ '9'

/-- Hexadecimal digit test (both cases). -/
def isHexCh (c : Char) : Bool := isDigitCh c || ('a' ≤ c && c ≤ 'f') || ('A' ≤ c && c ≤ 'F')

/-- Value of a hexadecimal digit. -/
def hexVal (c : Char) : Nat :=
  if isDigitCh c then c.toNat - '0'.toNat
  else if 'a' ≤ c && c ≤ 'f' then c.toNat - 'a'.toNat + 10
  else c.toNat - 'A'.toNat + 10

/-- Natural number denoted by a list of decimal digits. -/
def digitsToNat (ds : List Char) : Nat := ds.foldl (fun n c => 10 * n + (c.toNat - '0'.toNat)) 0

/-- Four hexadecimal digits of a JSON unicode escape. -/
def parseHex4 (cs : List Char) : Option (Nat × List Char) :=
  match cs with
  | a :: b :: c :: d :: rest =>
    if isHexCh a && isHexCh b && isHexCh c && isHexCh d then
      some (((hexVal a * 16 + hexVal b) * 16 + hexVal c) * 16 + hexVal d, rest)
    else none
  | _ => none

/-- Body of a JSON string after the opening quote, with the standard escape
sequences (surrogate-pair recombination is not modelled).  Fuel bounded by
the input length suffices. -/
def parseStringBody : Nat → List Char → Option (List Char × List Char)
  | _, [] => none
  | 0, _ => none
  | fuel + 1, c :: cs =>
    if c = '"' then some ([], cs)
    else if c = '\\' then
      match cs with
      | [] => none
      | e :: cs2 =>
        let esc : Option (Char × List Char) :=
          if e = '"' then some ('"', cs2)
          else if e = '\\' then some ('\\', cs2)
          else if e = '/' then some ('/', cs2)
          else if e = 'b' then some ('\x08', cs2)
          else if e = 'f' then some ('\x0c', cs2)
          else if e = 'n' then some ('\n', cs2)
          else if e = 'r' then some ('\r', cs2)
          else if e = 't' then some ('\t', cs2)
          else none
        match esc with
        | some (ch, cs3) =>
          match parseStringBody fuel cs3 with
          | some (out, rest) => some (ch :: out, rest)
          | none => none
        | none =>
          if e = 'u' then
            match parseHex4 cs2 with
            | some (n, cs3) =>
              match parseStringBody fuel cs3 with
              | some (out, rest) => some (Char.ofNat n :: out, rest)
              | none => none
            | none => none
          else none
    else
      match parseStringBody fuel cs with
      | some (out, rest) => some (c :: out, rest)
      | none => none

/-- Longest prefix of decimal digits and the remainder. -/
def takeDigits : List Char → (List Char × List Char)
  | [] => ([], [])
  | c :: cs =>
    if isDigitCh c then
      let p := takeDigits cs
      (c :: p.1, p.2)
    else ([], c :: cs)

/-- JSON number: optional minus, integer digits, optional fraction and
exponent, evaluated exactly as a rational. -/
def parseNumber (cs : List Char) : Option (Rat × List Char) :=
  let sgn : Bool × List Char :=
    match cs with
    | '-' :: rest => (true, rest)
    | _ => (false, cs)
  match takeDigits sgn.2 with
  | ([], _) => none
  | (ints, cs2) =>
    let fr : List Char × List Char :=
      match cs2 with
      | '.' :: rest =>
        match takeDigits rest with
        | ([], _) => ([], cs2)
        | (ds, r) => (ds, r)
      | _ => ([], cs2)
    let ex : Int × List Char :=
      match fr.2 with
      | e :: rest =>
        if e = 'e' || e = 'E' then
          let se : Int × List Char :=
            match rest with
            | '+' :: r => (1, r)
            | '-' :: r => (-1, r)
            | _ => (1, rest)
          match takeDigits se.2 with
          | ([], _) => (0, fr.2)
          | (ds, r) => (se.1 * (digitsToNat ds : Int), r)
        else (0, fr.2)
      | [] => (0, fr.2)
    let mantissa : Int := (digitsToNat (ints ++ fr.1) : Int)
    let mantissa : Int := if sgn.1 then -mantissa else mantissa
    let base : Rat := (mantissa : Rat) / ((10 : Rat) ^ fr.1.length)
    let q : Rat :=
      if ex.1 ≥ 0 then base * (10 : Rat) ^ ex.1.toNat
      else base / ((10 : Rat) ^ (-ex.1).toNat)
    some (q, ex.2)

/-- Result of one step of the recursive-descent JSON parser: a value, the
member list of an object, or the element list of an array. -/
inductive PRes where
  | val (j : Json) : PRes
  | mems (l : List (String × Json)) : PRes
  | elems (l : List Json) : PRes

/-- Fuel-indexed recursive-descent parser for the JSON grammar accepted by
Python json.loads.  Mode 0 parses one value; mode 1 parses the member list
of an object after the opening brace and leading whitespace; mode 2 parses
the element list of an array after the opening bracket and leading
whitespace.  Every recursive call first consumes at least one character, so
fuel bounded by the input length plus one suffices. -/
def parseP : Nat → Nat → List Char → Option (PRes × List Char)
  | 0, _, _ => none
  | fuel + 1, 0, cs =>
    (match cs with
     | [] => none
     | c :: rest =>
       if c = '\x7b' then
         match skipWsL rest with
         | '\x7d' :: rest2 => some (PRes.val (Json.obj []), rest2)
         | cs2 =>
           match parseP fuel 1 cs2 with
           | some (PRes.mems l, r) => some (PRes.val (Json.obj l), r)
           | _ => none
       else if c = '[' then
         match skipWsL rest with
         | ']' :: rest2 => some (PRes.val (Json.arr []), rest2)
         | cs2 =>
           match parseP fuel 2 cs2 with
           | some (PRes.elems l, r) => some (PRes.val (Json.arr l), r)
           | _ => none
       else if c = '"' then
         match parseStringBody rest.length rest with
         | some (out, r) => some (PRes.val (Json.str (String.mk out)), r)
         | none => none
       else if c = 'n' then
         if ['u', 'l', 'l'].isPrefixOf rest then some (PRes.val Json.null, rest.drop 3) else none
       else if c = 't' then
         if ['r', 'u', 'e'].isPrefixOf rest then some (PRes.val (Json.bool true), rest.drop 3)
         else none
       else if c = 'f' then
         if ['a', 'l', 's', 'e'].isPrefixOf rest then some (PRes.val (Json.bool false), rest.drop 4)
         else none
       else
         match parseNumber (c :: rest) with
         | some (q, r) => some (PRes.val (Json.num q), r)
         | none => none)
  | fuel + 1, 1, cs =>
    (match cs with
     | '"' :: rest =>
       match parseStringBody rest.length rest with
       | none => none
       | some (key, cs2) =>
         match skipWsL cs2 with
         | ':' :: cs3 =>
           match parseP fuel 0 (skipWsL cs3) with
           | some (PRes.val v, cs4) =>
             (match skipWsL cs4 with
              | ',' :: cs5 =>
                match parseP fuel 1 (skipWsL cs5) with
                | some (PRes.mems flds, cs6) => some (PRes.mems ((String.mk key, v) :: flds), cs6)
                | _ => none
              | '\x7d' :: cs5 => some (PRes.mems [(String.mk key, v)], cs5)
              | _ => none)
           | _ => none
         | _ => none
     | _ => none)
  | fuel + 1, _, cs =>
    (match parseP fuel 0 cs with
     | some (PRes.val v, cs2) =>
       (match skipWsL cs2 with
        | ',' :: cs3 =>
          match parseP fuel 2 (skipWsL cs3) with
          | some (PRes.elems vs, cs4) => some (PRes.elems (v :: vs), cs4)
          | _ => none
        | ']' :: cs3 => some (PRes.elems [v], cs3)
        | _ => none)
     | _ => none)

/-- Python json.loads: parse a complete JSON document, allowing surrounding
whitespace and rejecting trailing data. -/
def json_loads (s : String) : Option Json :=
  match parseP (s.data.length + 1) 0 (skipWsL s.data) with
  | some (PRes.val v, rest) => if skipWsL rest = [] then some v else none
  | _ => none

/-- UUID-shaped prefix: 8-4-4-4-12 hexadecimal groups separated by dashes,
as matched case-insensitively by the regex in utils.py line 98. -/
def uuidAt (cs : List Char) : Option (List Char) :=
  match cs.take 36 with
  | c :: rest =>
    let cand := c :: rest
    if cand.length = 36 ∧
       (List.range 36).all (fun i =>
         if i = 8 ∨ i = 13 ∨ i = 18 ∨ i = 23 then (cand.getD i ' ') = '-'
         else isHexCh (cand.getD i ' ')) then
      some cand
    else none
  | [] => none

/-- Leftmost UUID-shaped substring, as returned by re.findall(...)[0]. -/
def findFirstUuid : List Char → Option String
  | [] => none
  | c :: cs =>
    match uuidAt (c :: cs) with
    | some u => some (String.mk u)
    | none => findFirstUuid cs

/-- Field search of the JSON paragraph of parse_session_id_from_sse
(utils.py:75-85): the common session-id fields at top level in order, then
the fields of a nested session object. -/
def sseObjFields (data : List (String × Json)) : Option String :=
  match dictGet data "sessionId" with
  | some v => some (pyStr v)
  | none =>
    match dictGet data "session_id" with
    | some v => some (pyStr v)
    | none =>
      match dictGet data "id" with
      | some v => some (pyStr v)
      | none =>
        match dictGet data "session" with
        | some (Json.obj sess) =>
          (match dictGet sess "id" with
           | some v => some (pyStr v)
           | none =>
             match dictGet sess "sessionId" with
             | some v => some (pyStr v)
             | none =>
               match dictGet sess "session_id" with
               | some v => some (pyStr v)
               | none => none)
        | _ => none

/-- JSON paragraph of parse_session_id_from_sse (utils.py:71-87): if the
stripped payload starts with an opening brace, json.loads it and search the
session-id fields; a decode failure falls through. -/
def sseJsonAttempt (event_data : String) : Option String :=
  if pyStartswith (pyStrip event_data) "\x7b" then
    match json_loads event_data with
    | some (Json.obj data) => sseObjFields data
    | _ => none
  else none

/-- URL paragraph of parse_session_id_from_sse (utils.py:89-95): split on
the literal "sessionId=", take the second chunk, cut it at the first
ampersand or whitespace character with re.split, and strip it. -/
def sseQueryAttempt (event_data : String) : Option String :=
  if strContains event_data "sessionId=" then
    match (pySplit event_data "sessionId=").get? 1 with
    | some part1 =>
      some (pyStrip (String.mk (part1.takeWhile (fun c => !(c = '&' || pySpace c)))))
    | none => none
  else none

/-- Translation of utils.parse_session_id_from_sse (utils.py:61-103):
try a JSON object field (sessionId / session_id / id at top level, then
id / sessionId / session_id under a session object); else the token after
the literal "sessionId=" as produced by str.split and re.split on the
delimiter class of ampersand-or-whitespace; else the first UUID-shaped
substring. -/
def parse_session_id_from_sse (event_data : String) : Option String :=
  match sseJsonAttempt event_data with
  | some sid => some sid
  | none =>
    match sseQueryAttempt event_data with
    | some sid => some sid
    | none => findFirstUuid event_data.data

/-- Character list of the literal "sessionId=". -/
def sessionIdPat : List Char := "sessionId=".data

/-- Rule 1 of the specified extraction order: if the payload is a JSON
object, return the sessionId / session_id / id field found at top level or
nested under a session object. -/
def specJsonRule (payload : String) : Option String :=
  match json_loads payload with
  | some (Json.obj data) => sseObjFields data
  | _ => none

/-- Rule 2 exactly as the claim words it: the token following the
occurrence of "sessionId=", up to the next ampersand, whitespace character,
or the end of the string. -/
def specQueryRuleClaim (payload : String) : Option String :=
  if strContains payload "sessionId=" then
    some (String.mk ((afterFirst sessionIdPat payload.data).takeWhile
      (fun c => !(c = '&' || pySpace c))))
  else none

/-- Scan that stops at an ampersand, a whitespace character, or a position
where another occurrence of pat begins. -/
def takeUntilStop (pat : List Char) : List Char → List Char
  | [] => []
  | c :: cs =>
    if c = '&' || pySpace c || pat.isPrefixOf (c :: cs) then [] else c :: takeUntilStop pat cs

/-- Rule 2 as the code actually behaves (amended rule): the token
additionally stops where a second occurrence of "sessionId=" begins,
because str.split cuts the payload into the chunks between occurrences. -/
def specQueryRuleAmended (payload : String) : Option String :=
  if strContains payload "sessionId=" then
    some (String.mk (takeUntilStop sessionIdPat (afterFirst sessionIdPat payload.data)))
  else none

/-- Extraction cascade exactly as the claim states it: rule 1, else rule 2
in the claim wording, else the first UUID-shaped substring. -/
def specExtractClaim (payload : String) : Option String :=
  match specJsonRule payload with
  | some v => some v
  | none =>
    match specQueryRuleClaim payload with
    | some v => some v
    | none => findFirstUuid payload.data

/-- Extraction cascade with the amended rule 2. -/
def specExtractAmended (payload : String) : Option String :=
  match specJsonRule payload with
  | some v => some v
  | none =>
    match specQueryRuleAmended payload with
    | some v => some v
    | none => findFirstUuid payload.data

theorem parseP_obj_head (fuel : Nat) (cs : List Char) (d : List (String × Json))
    (r : List Char) (h : parseP fuel 0 cs = some (PRes.val (Json.obj d), r)) :
    ∃ tl, cs = '\x7b' :: tl := by
  match fuel, cs with
  | 0, _ => simp [parseP] at h
  | fuel + 1, [] => simp [parseP] at h
  | fuel + 1, c :: rest =>
    by_cases hc : c = '\x7b'
    · exact ⟨rest, by rw [hc]⟩
    · exfalso
      simp only [parseP, hc, if_false] at h
      repeat' split at h
      all_goals simp_all

theorem dropWhile_pySpace_of_jsonWs (cs tl : List Char)
    (h : cs.dropWhile jsonWs = '\x7b' :: tl) : cs.dropWhile pySpace = '\x7b' :: tl := by
  induction cs with
  | nil => simp [List.dropWhile_nil] at h
  | cons c cs ih =>
    cases hjw : jsonWs c with
    | true =>
      have hp : pySpace c = true := by
        simp only [jsonWs, Bool.or_eq_true, decide_eq_true_eq] at hjw
        simp only [pySpace, Bool.or_eq_true, decide_eq_true_eq]
        tauto
      simp only [List.dropWhile_cons, hjw, if_true] at h
      simp only [List.dropWhile_cons, hp, if_true]
      exact ih h
    | false =>
      simp only [List.dropWhile_cons, hjw, Bool.false_eq_true, if_false] at h
      injection h with h1 h2
      subst h1
      subst h2
      have hp : pySpace '\x7b' = false := by decide
      simp [List.dropWhile_cons, hp]

theorem dropWhile_append_last (p : Char → Bool) (l : List Char) (a : Char)
    (ha : p a = false) : ∃ l2, (l ++ [a]).dropWhile p = l2 ++ [a] := by
  induction l with
  | nil => exact ⟨[], by simp [List.dropWhile_cons, ha]⟩
  | cons c l ih =>
    cases hc : p c with
    | true =>
      obtain ⟨l2, hl2⟩ := ih
      exact ⟨l2, by simpa [List.dropWhile_cons, hc] using hl2⟩
    | false => exact ⟨c :: l, by simp [List.dropWhile_cons, hc]⟩

theorem stripList_brace_head (cs tl : List Char) (h : cs.dropWhile pySpace = '\x7b' :: tl) :
    ∃ l2, stripList cs = '\x7b' :: l2 := by
  unfold stripList
  rw [h]
  have hb : pySpace '\x7b' = false := by decide
  obtain ⟨l2, hl2⟩ := dropWhile_append_last pySpace tl.reverse '\x7b' hb
  refine ⟨l2.reverse, ?_⟩
  have : ('\x7b' :: tl).reverse = tl.reverse ++ ['\x7b'] := by simp
  rw [this, hl2]
  simp

theorem sseJsonAttempt_eq_specJsonRule (s : String) : sseJsonAttempt s = specJsonRule s := by
  unfold sseJsonAttempt specJsonRule
  by_cases hg : pyStartswith (pyStrip s) "\x7b" = true
  · rw [if_pos hg]
  · rw [if_neg hg]
    match hj : json_loads s with
    | some (Json.obj d) =>
      exfalso
      apply hg
      unfold json_loads at hj
      split at hj
      next v rest heq =>
        split at hj
        · cases hj
          obtain ⟨tl, htl⟩ := parseP_obj_head _ _ _ _ heq
          have hd : s.data.dropWhile pySpace = '\x7b' :: tl :=
            dropWhile_pySpace_of_jsonWs _ _ htl
          obtain ⟨l2, hl2⟩ := stripList_brace_head _ _ hd
          unfold pyStartswith pyStrip
          rw [hl2]
          simp [List.isPrefixOf]
        · cases hj
      next hne => cases hj
    | some Json.null => rfl
    | some (Json.bool b) => rfl
    | some (Json.num q) => rfl
    | some (Json.str t) => rfl
    | some (Json.arr l) => rfl
    | none => rfl

theorem pySplitAux_head (pat : List Char) (fuel : Nat) :
    ∀ (cs acc : List Char), cs.length ≤ fuel →
      (pySplitAux pat fuel cs acc).get? 0 = some (acc.reverse ++ takeUntilOcc pat cs) := by
  induction fuel with
  | zero =>
    intro cs acc h
    have hnil : cs = [] := List.length_eq_zero.mp (Nat.le_zero.mp h)
    subst hnil
    simp [pySplitAux, takeUntilOcc]
  | succ fuel ih =>
    intro cs acc h
    cases cs with
    | nil => simp [pySplitAux, takeUntilOcc]
    | cons c cs =>
      by_cases hp : pat.isPrefixOf (c :: cs) = true
      · simp [pySplitAux, hp, takeUntilOcc]
      · have hlen : cs.length ≤ fuel := by
          simp only [List.length_cons] at h
          omega
        simp only [pySplitAux, hp, Bool.false_eq_true, if_false]
        rw [ih cs (c :: acc) hlen]
        simp [takeUntilOcc, hp]

theorem pySplitAux_get1 (pat : List Char) (hne : pat.isEmpty = false) (fuel : Nat) :
    ∀ (cs acc : List Char), cs.length ≤ fuel → subListAt pat cs = true →
      (pySplitAux pat fuel cs acc).get? 1 =
        some (takeUntilOcc pat (afterFirst pat cs)) := by
  induction fuel with
  | zero =>
    intro cs acc h hsub
    have hnil : cs = [] := List.length_eq_zero.mp (Nat.le_zero.mp h)
    subst hnil
    simp [subListAt, hne] at hsub
  | succ fuel ih =>
    intro cs acc h hsub
    cases cs with
    | nil => simp [subListAt, hne] at hsub
    | cons c cs =>
      by_cases hp : pat.isPrefixOf (c :: cs) = true
      · have hpos : 1 ≤ pat.length := by
          cases pat with
          | nil => simp [List.isEmpty] at hne
          | cons p ps => simp
        have hlen : ((c :: cs).drop pat.length).length ≤ fuel := by
          simp only [List.length_drop, List.length_cons]
          simp only [List.length_cons] at h
          omega
        simp only [pySplitAux, hp, if_true]
        rw [List.get?_cons_succ]
        rw [pySplitAux_head pat fuel _ [] hlen]
        simp [afterFirst, hp]
      · have hlen : cs.length ≤ fuel := by
          simp only [List.length_cons] at h
          omega
        have hsub2 : subListAt pat cs = true := by
          simp only [subListAt, Bool.or_eq_true] at hsub
          tauto
        simp only [pySplitAux, hp, Bool.false_eq_true, if_false]
        rw [ih cs (c :: acc) hlen hsub2]
        simp [afterFirst, hp]

theorem takeWhile_takeUntilOcc (pat : List Char) (xs : List Char) :
    (takeUntilOcc pat xs).takeWhile (fun c => !(c = '&' || pySpace c)) =
      takeUntilStop pat xs := by
  induction xs with
  | nil => simp [takeUntilOcc, takeUntilStop]
  | cons c cs ih =>
    cases hp : pat.isPrefixOf (c :: cs) with
    | true => simp [takeUntilOcc, takeUntilStop, hp]
    | false =>
      cases hd : (c = '&' || pySpace c) with
      | true =>
        simp [takeUntilOcc, takeUntilStop, hp, hd, List.takeWhile_cons]
        simp only [Bool.or_eq_true, decide_eq_true_eq] at hd
        tauto
      | false =>
        have hc1 : ¬c = '&' := by
          intro h
          rw [h] at hd
          simp at hd
        have hc2 : pySpace c = false := by
          cases hps : pySpace c
          · rfl
          · rw [hps] at hd
            simp at hd
        simp only [Bool.not_or] at ih
        simp [takeUntilOcc, takeUntilStop, hp, hd, List.takeWhile_cons, hc1, hc2, ih]

theorem dropWhile_eq_self_of_not (p : Char → Bool) (xs : List Char)
    (h : ∀ c ∈ xs, p c = false) : xs.dropWhile p = xs := by
  cases xs with
  | nil => simp
  | cons c cs => simp [List.dropWhile_cons, h c (by simp)]

theorem stripList_eq_self (xs : List Char) (h : ∀ c ∈ xs, pySpace c = false) :
    stripList xs = xs := by
  unfold stripList
  rw [dropWhile_eq_self_of_not pySpace xs h]
  rw [dropWhile_eq_self_of_not pySpace xs.reverse (fun c hc => h c (List.mem_reverse.mp hc))]
  simp

theorem takeUntilStop_no_space (pat : List Char) (xs : List Char) :
    ∀ c ∈ takeUntilStop pat xs, pySpace c = false := by
  induction xs with
  | nil => simp [takeUntilStop]
  | cons c cs ih =>
    by_cases hcond : (c = '&' || pySpace c || pat.isPrefixOf (c :: cs)) = true
    · simp [takeUntilStop, hcond]
    · intro d hd
      simp only [takeUntilStop, hcond, Bool.false_eq_true, if_false] at hd
      rcases List.mem_cons.mp hd with rfl | hd2
      · simp only [Bool.or_eq_true, not_or] at hcond
        exact Bool.not_eq_true _ |>.mp hcond.1.2
      · exact ih d hd2

theorem sseQueryAttempt_eq_amended (s : String) :
    sseQueryAttempt s = specQueryRuleAmended s := by
  unfold sseQueryAttempt specQueryRuleAmended
  by_cases hc : strContains s "sessionId=" = true
  · rw [if_pos hc, if_pos hc]
    have hsub : subListAt sessionIdPat s.data = true := hc
    have hne : sessionIdPat.isEmpty = false := by decide
    have h1 := pySplitAux_get1 sessionIdPat hne s.data.length s.data [] (le_refl _) hsub
    rw [show pySplit s "sessionId=" = pySplitAux sessionIdPat s.data.length s.data [] from rfl]
    rw [h1]
    show some (pyStrip (String.mk
        ((takeUntilOcc sessionIdPat (afterFirst sessionIdPat s.data)).takeWhile
          (fun c => !(c = '&' || pySpace c))))) =
      some (String.mk (takeUntilStop sessionIdPat (afterFirst sessionIdPat s.data)))
    rw [takeWhile_takeUntilOcc]
    unfold pyStrip
    rw [show (String.mk (takeUntilStop sessionIdPat (afterFirst sessionIdPat s.data))).data
          = takeUntilStop sessionIdPat (afterFirst sessionIdPat s.data) from rfl]
    rw [stripList_eq_self _ (takeUntilStop_no_space _ _)]
  · rw [if_neg hc, if_neg hc]

theorem parse_eq_specExtractAmended (s : String) :
    parse_session_id_from_sse s = specExtractAmended s := by
  unfold parse_session_id_from_sse specExtractAmended
  rw [sseJsonAttempt_eq_specJsonRule, sseQueryAttempt_eq_amended]

/-- C2 counterexample: on the payload "sessionId=absessionId=cd" the code
returns "ab", because str.split cuts the text into the chunks between
occurrences of "sessionId=", while rule 2 exactly as claimed (token up to
the next ampersand, whitespace, or end of string) returns the whole
remainder "absessionId=cd"; the claimed rule cascade therefore disagrees
with the code at this input. -/
theorem c2_counterexample :
    parse_session_id_from_sse "sessionId=absessionId=cd" = some "ab" ∧
    specExtractClaim "sessionId=absessionId=cd" = some "absessionId=cd" ∧
    some "ab" ≠ some "absessionId=cd" :=
  ⟨by decide, by decide, by decide⟩

/-- C2 (amended): session-id extraction is exactly the first-match cascade
of rule 1 (field of a JSON object payload), rule 2 amended so that the
token following "sessionId=" stops at the next ampersand, whitespace
character, second occurrence of "sessionId=", or end of string, and rule 3
(first UUID-shaped substring); and the payloads "/message?sessionId=abc123",
a sessionId JSON field, a nested session.id JSON field, and free text with
a UUID each yield the correct identifier, while "no id here" yields none. -/
theorem c2_extraction_rules :
    (∀ s : String, parse_session_id_from_sse s = specExtractAmended s) ∧
    parse_session_id_from_sse "/message?sessionId=abc123" = some "abc123" ∧
    parse_session_id_from_sse "\x7b\"sessionId\":\"abc123\"\x7d" = some "abc123" ∧
    parse_session_id_from_sse "\x7b\"session\":\x7b\"id\":\"abc123\"\x7d\x7d" = some "abc123" ∧
    parse_session_id_from_sse "see 550e8400-e29b-41d4-a716-446655440000 here" =
      some "550e8400-e29b-41d4-a716-446655440000" ∧
    parse_session_id_from_sse "no id here" = none :=
  ⟨parse_eq_specExtractAmended, by decide, by decide, by decide, by decide, by decide⟩

/-- C10 counterexample: the JSON payload with only an endpoint field does
fall through to the "sessionId=" rule, but the extracted token is not the
claimed "abc": the token runs to the next ampersand or whitespace, so the
closing quote and closing brace of the JSON text belong to it. -/
theorem c10_counterexample :
    parse_session_id_from_sse "\x7b\"endpoint\": \"/message?sessionId=abc\"\x7d" =
      some "abc\"\x7d" ∧
    some "abc\"\x7d" ≠ some "abc" :=
  ⟨by decide, by decide⟩

/-- C10 (amended): a payload that parses as a JSON object containing none
of the session-id fields does not make extraction return none outright:
extraction falls through to the "sessionId=" substring rule and then the
UUID scan.  The concrete endpoint payload of the claim yields the token
delimited as in the code, which includes the trailing quote and brace. -/
theorem c10_json_fallthrough :
    ∀ (s : String) (d : List (String × Json)),
      json_loads s = some (Json.obj d) → sseObjFields d = none →
      parse_session_id_from_sse s =
        (match sseQueryAttempt s with
         | some v => some v
         | none => findFirstUuid s.data) := by
  intro s d hj hf
  have hnone : sseJsonAttempt s = none := by
    unfold sseJsonAttempt
    by_cases hg : pyStartswith (pyStrip s) "\x7b" = true
    · rw [if_pos hg, hj]
      show sseObjFields d = none
      exact hf
    · rw [if_neg hg]
  unfold parse_session_id_from_sse
  rw [hnone]

/-- Witness for c10_json_fallthrough at the endpoint payload of the claim,
evaluated to its concrete result. -/
theorem c10_json_fallthrough_witness :
    parse_session_id_from_sse "\x7b\"endpoint\": \"/message?sessionId=abc\"\x7d" =
      (match sseQueryAttempt "\x7b\"endpoint\": \"/message?sessionId=abc\"\x7d" with
       | some v => some v
       | none => findFirstUuid "\x7b\"endpoint\": \"/message?sessionId=abc\"\x7d".data) ∧
    sseQueryAttempt "\x7b\"endpoint\": \"/message?sessionId=abc\"\x7d" = some "abc\"\x7d" :=
  ⟨c10_json_fallthrough "\x7b\"endpoint\": \"/message?sessionId=abc\"\x7d"
      [("endpoint", Json.str "/message?sessionId=abc")] (by rfl) (by rfl),
   by decide⟩

/-- Error taxonomy of exceptions.py, together with the Python builtin
exceptions that session.py can let escape.  exceptions.py defines the
MCPError subclasses ConnectionError, SessionError, ToolError, JSONRPCError
and ResourceError; no timeout-specific class exists in the module.  A
JSONRPCError carries the raw message / code / data values taken from the
response (JSONRPCError.from_response).  The builtin ValueError (raised by
parse_jsonrpc_response on undecodable bodies), TypeError and AttributeError
(raised by the membership and get operations on ill-shaped responses) are
included so that every raising path of send_request is representable. -/
inductive PyExc where
  | connectionError (msg : String) : PyExc
  | sessionError (msg : String) : PyExc
  | toolError (msg : String) : PyExc
  | jsonRpcError (message : Json) (code : Json) (data : Option Json) : PyExc
  | resourceError (msg : String) : PyExc
  | valueError (msg : String) : PyExc
  | typeError (msg : String) : PyExc
  | attributeError (msg : String) : PyExc

/-- Translation of utils.create_jsonrpc_request (utils.py:15-39): the
envelope dict in insertion order, with the params key present exactly when
params were supplied.  The request id is generated with uuid4 when not
supplied by the caller; the send path models that generation with an id
supply, so the generated id is taken as an argument here. -/
def create_jsonrpc_request (method : String) (params : Option Json) (request_id : String) :
    List (String × Json) :=
  [("jsonrpc", Json.str "2.0"), ("id", Json.str request_id), ("method", Json.str method)]
    ++ (match params with
        | some p => [("params", p)]
        | none => [])

/-- State of an MCPSession as observed by send_request (session.py:345-360):
the base URL, the current session id, the is_connected flag, and the SSE
client (none when absent, otherwise its is_connected flag). -/
structure SessionSt where
  base_url : String
  session_id : Option String
  is_connected : Bool
  sse_client : Option Bool

/-- Oracles consumed by a send_request run: the session ids that successive
SSE handshakes would grant, the outcomes of the plain SSE stream reconnect
attempted by the pre-check of send_request, and the index of the next
request id in the uuid4 stream. -/
structure Env where
  sids : List String
  sseOk : List Bool
  nextId : Nat

/-- One scripted outcome of the HTTP POST to the message endpoint: a body
that parses to the given JSON, a body that fails JSON decoding, an
asyncio.TimeoutError, or an aiohttp.ClientError. -/
inductive NetResponse where
  | body (response : Json) : NetResponse
  | badJson (text : String) : NetResponse
  | timeout : NetResponse
  | clientError (msg : String) : NetResponse

/-- One HTTP POST actually issued: its URL and its JSON-RPC envelope. -/
structure Post where
  url : String
  envelope : List (String × Json)

/-- Observable outcome of a send_request call: the returned value or the
raised exception, the POSTs issued in order, the number of reconnection
cycles (connect calls issuing a new handshake) performed, and the final
session state. -/
structure SendResult where
  result : Except PyExc Json
  posts : List Post
  reconnects : Nat
  state : SessionSt

/-- MCPSession._get_message_url (session.py:362-366): SessionError when no
session id is active, else the session-scoped message URL. -/
def get_message_url (st : SessionSt) : Except PyExc String :=
  match st.session_id with
  | none => Except.error (PyExc.sessionError "No active session")
  | some sid => Except.ok (st.base_url ++ "/message?sessionId=" ++ sid)

/-- Python membership test of line 599 of session.py, "error" in
response_data, for an arbitrary parsed body: key membership on a dict,
element membership on a list, substring on a str, TypeError otherwise. -/
def pyInJson (needle : String) : Json → Except PyExc Bool
  | Json.obj fields => Except.ok (dictGet fields needle).isSome
  | Json.str s => Except.ok (strContains s needle)
  | Json.arr xs =>
    Except.ok (xs.any (fun j =>
      match j with
      | Json.str t => t = needle
      | _ => false))
  | _ => Except.error (PyExc.typeError "argument of type is not iterable")

/-- Python dict get with default, response.get(k, d): AttributeError when
the receiver is not a dict. -/
def pyGetD (j : Json) (k : String) (d : Json) : Except PyExc Json :=
  match j with
  | Json.obj fields => Except.ok ((dictGet fields k).getD d)
  | _ => Except.error (PyExc.attributeError "object has no attribute get")

/-- Invalid-session test of session.py:602-604: the error value is a dict,
its code equals -32602, and its message (default empty string) contains
"Invalid session ID".  The message containment raises TypeError when the
message is present but not a string, as the Python in operator does; the
conjunction short-circuits as in Python. -/
def isInvalidSessionError (error : Json) : Except PyExc Bool :=
  match error with
  | Json.obj e =>
    let codeMatches : Bool :=
      match dictGet e "code" with
      | some (Json.num q) => q = (-32602 : Rat)
      | _ => false
    if codeMatches then
      match (dictGet e "message").getD (Json.str "") with
      | Json.str m => Except.ok (strContains m "Invalid session ID")
      | _ => Except.error (PyExc.typeError "argument of type is not iterable")
    else Except.ok false
  | _ => Except.ok false

/-- JSONRPCError.from_response (exceptions.py:39-46): build the exception
from the error member of the response, with the documented defaults. -/
def jsonrpc_error_from_response (response : Json) : Except PyExc PyExc :=
  match pyGetD response "error" (Json.obj []) with
  | Except.error e => Except.error e
  | Except.ok error =>
    match error with
    | Json.obj e =>
      Except.ok (PyExc.jsonRpcError
        ((dictGet e "message").getD (Json.str "Unknown JSON-RPC error"))
        ((dictGet e "code").getD (Json.num 0))
        (dictGet e "data"))
    | _ => Except.error (PyExc.attributeError "object has no attribute get")

/-- MCPSession.connect (session.py:372-450) at the interface send_request
relies on.  The SSE handshake itself (opening the stream, waiting for the
endpoint event and extracting its session id with
parse_session_id_from_sse) is abstracted into the sids oracle holding the
identifiers successive handshakes would yield: connect returns the current
id unchanged when already connected, otherwise installs the next granted
id, marks the session and a fresh SSE client connected, and on handshake
failure (exhausted oracle) raises the SessionError of line 450. -/
def modelConnect (st : SessionSt) (sids : List String) :
    Except PyExc (String × SessionSt × List String) :=
  match st.session_id, st.is_connected with
  | some sid, true => Except.ok (sid, st, sids)
  | _, _ =>
    match sids with
    | [] => Except.error (PyExc.sessionError "Failed to connect to MCP server")
    | sid :: rest =>
      Except.ok (sid, { st with session_id := some sid, is_connected := true,
                                sse_client := some true }, rest)

/-- Classification of a decoded response body by the error-handling block
of session.py:599-615: a final outcome (the returned body, or the raised
JSONRPCError / builtin exception), or the invalid-session signal that
triggers reconnect-and-retry. -/
inductive RespStep where
  | done (result : Except PyExc Json) : RespStep
  | retry : RespStep

/-- The error-handling block of session.py:599-615 on a decoded body: no
error member returns the body verbatim; an invalid-session error signals a
retry; any other error member raises JSONRPCError.from_response; the
membership and get operations can themselves raise on ill-shaped bodies. -/
def response_step (resp : Json) : RespStep :=
  match pyInJson "error" resp with
  | Except.error e => RespStep.done (Except.error e)
  | Except.ok false => RespStep.done (Except.ok resp)
  | Except.ok true =>
    match pyGetD resp "error" (Json.obj []) with
    | Except.error e => RespStep.done (Except.error e)
    | Except.ok error =>
      match isInvalidSessionError error with
      | Except.error e => RespStep.done (Except.error e)
      | Except.ok true => RespStep.retry
      | Except.ok false =>
        match jsonrpc_error_from_response resp with
        | Except.error e => RespStep.done (Except.error e)
        | Except.ok exc => RespStep.done (Except.error exc)

/-- MCPSession.send_request (session.py:535-622) against scripted oracles,
with fuel for the retry recursion (one scripted network response is
consumed before every recursive call, so fuel above the script length is
never exhausted; an exhausted script or fuel is reported as a transport
failure, which the code maps to a SessionError).  The steps mirror the
source: the is_connected guard; the SSE pre-check that rebuilds the stream
client or fails with the doubled SessionError message produced by the
except clause re-wrapping its own raise; envelope construction (consuming
one generated id); the session-scoped URL; then the POST outcome -
TimeoutError and ClientError become SessionErrors, an undecodable body
raises ValueError, and a decoded body is handled by response_step, where
the invalid-session case clears is_connected, runs connect, and re-enters
send_request on the remaining script. -/
def send_request_fuel (idGen : Nat → String) :
    Nat → SessionSt → Env → List NetResponse → String → Option Json → Nat → SendResult
  | 0, st, _, _, _, _, _ =>
    { result := Except.error (PyExc.sessionError "Failed to send request: no scripted response"),
      posts := [], reconnects := 0, state := st }
  | fuel + 1, st, env, net, method, params, tmo =>
    match st.is_connected with
    | false =>
      { result := Except.error (PyExc.sessionError "Not connected to MCP server"),
        posts := [], reconnects := 0, state := st }
    | true =>
      let doSend : SessionSt → Env → SendResult := fun st env =>
        let request := create_jsonrpc_request method params (idGen env.nextId)
        let env := { env with nextId := env.nextId + 1 }
        match get_message_url st with
        | Except.error e => { result := Except.error e, posts := [], reconnects := 0, state := st }
        | Except.ok url =>
          match net with
          | [] =>
            { result := Except.error
                (PyExc.sessionError "Failed to send request: no scripted response"),
              posts := [], reconnects := 0, state := st }
          | r :: rest =>
            let post : Post := { url := url, envelope := request }
            match r with
            | NetResponse.timeout =>
              { result := Except.error (PyExc.sessionError
                  ("Request timed out after " ++ toString tmo ++ "s: " ++ method)),
                posts := [post], reconnects := 0, state := st }
            | NetResponse.clientError m =>
              { result := Except.error (PyExc.sessionError ("Failed to send request: " ++ m)),
                posts := [post], reconnects := 0, state := st }
            | NetResponse.badJson text =>
              { result := Except.error (PyExc.valueError ("Invalid JSON response: " ++ text)),
                posts := [post], reconnects := 0, state := st }
            | NetResponse.body resp =>
              match response_step resp with
              | RespStep.done res =>
                { result := res, posts := [post], reconnects := 0, state := st }
              | RespStep.retry =>
                let st1 := { st with is_connected := false }
                match modelConnect st1 env.sids with
                | Except.error e =>
                  { result := Except.error e, posts := [post], reconnects := 0,
                    state := { st1 with sse_client := none } }
                | Except.ok (_, st2, sids2) =>
                  let sub := send_request_fuel idGen fuel st2 { env with sids := sids2 }
                    rest method params tmo
                  { result := sub.result, posts := post :: sub.posts,
                    reconnects := sub.reconnects + 1, state := sub.state }
      match st.sse_client with
      | some true => doSend st env
      | _ =>
        match env.sseOk with
        | true :: restOk => doSend { st with sse_client := some true } { env with sseOk := restOk }
        | _ =>
          { result := Except.error (PyExc.sessionError
              ("SSE connection lost and reconnection failed: " ++
               "SSE connection lost and reconnection failed")),
            posts := [], reconnects := 0,
            state := { st with is_connected := false, sse_client := some false } }

/-- MCPSession.send_request with its fuel instantiated to the script
length plus one, which the retry recursion can never exhaust. -/
def send_request (idGen : Nat → String) (st : SessionSt) (env : Env)
    (net : List NetResponse) (method : String) (params : Option Json) (tmo : Nat) :
    SendResult :=
  send_request_fuel idGen (net.length + 1) st env net method params tmo

/-- The mocked invalid-session response of the claims: a JSON-RPC error
with code -32602 and message "Invalid session ID". -/
def invalidSessionBody : Json :=
  Json.obj [("jsonrpc", Json.str "2.0"), ("id", Json.str "1"),
            ("error", Json.obj [("code", Json.num (-32602)),
                                ("message", Json.str "Invalid session ID")])]

/-- A successful JSON-RPC response body. -/
def okBody : Json :=
  Json.obj [("jsonrpc", Json.str "2.0"), ("id", Json.str "1"),
            ("result", Json.obj [("ok", Json.bool true)])]

/-- A concrete id supply standing for the uuid4 stream. -/
def exIdGen : Nat → String := fun n => "req-" ++ toString n

/-- A connected session fixture. -/
def connectedSt : SessionSt :=
  { base_url := "http://server", session_id := some "sess-1",
    is_connected := true, sse_client := some true }

/-- A disconnected session fixture. -/
def disconnectedSt : SessionSt :=
  { base_url := "http://server", session_id := none,
    is_connected := false, sse_client := none }

/-- Oracle fixture with two further session grants. -/
def baseEnv : Env := { sids := ["sess-2", "sess-3"], sseOk := [], nextId := 0 }

theorem response_step_invalid : response_step invalidSessionBody = RespStep.retry := rfl

theorem send_request_retry_unfold (idGen : Nat → String) (st : SessionSt) (env : Env)
    (rest : List NetResponse) (method : String) (params : Option Json) (tmo : Nat)
    (sid newSid : String) (sids2 : List String)
    (h1 : st.is_connected = true) (h2 : st.sse_client = some true)
    (h3 : st.session_id = some sid) (h4 : env.sids = newSid :: sids2) :
    send_request idGen st env (NetResponse.body invalidSessionBody :: rest) method params tmo =
      { result := (send_request idGen
            { st with session_id := some newSid, is_connected := true, sse_client := some true }
            { env with sids := sids2, nextId := env.nextId + 1 } rest method params tmo).result,
        posts := { url := st.base_url ++ "/message?sessionId=" ++ sid,
                   envelope := create_jsonrpc_request method params (idGen env.nextId) } ::
          (send_request idGen
            { st with session_id := some newSid, is_connected := true, sse_client := some true }
            { env with sids := sids2, nextId := env.nextId + 1 } rest method params tmo).posts,
        reconnects := (send_request idGen
            { st with session_id := some newSid, is_connected := true, sse_client := some true }
            { env with sids := sids2, nextId := env.nextId + 1 } rest method params
            tmo).reconnects + 1,
        state := (send_request idGen
            { st with session_id := some newSid, is_connected := true, sse_client := some true }
            { env with sids := sids2, nextId := env.nextId + 1 } rest method params tmo).state } := by
  obtain ⟨burl, osid, conn, sse⟩ := st
  obtain ⟨esids, esse, enext⟩ := env
  have h1a : conn = true := h1
  have h2a : sse = some true := h2
  have h3a : osid = some sid := h3
  have h4a : esids = newSid :: sids2 := h4
  subst h1a
  subst h2a
  subst h3a
  subst h4a
  rfl

theorem send_request_ok_response (idGen : Nat → String) (st : SessionSt) (env : Env)
    (rest : List NetResponse) (R : Json) (method : String) (params : Option Json) (tmo : Nat)
    (sid : String)
    (h1 : st.is_connected = true) (h2 : st.sse_client = some true)
    (h3 : st.session_id = some sid) (h5 : pyInJson "error" R = Except.ok false) :
    send_request idGen st env (NetResponse.body R :: rest) method params tmo =
      { result := Except.ok R,
        posts := [{ url := st.base_url ++ "/message?sessionId=" ++ sid,
                    envelope := create_jsonrpc_request method params (idGen env.nextId) }],
        reconnects := 0, state := st } := by
  obtain ⟨burl, osid, conn, sse⟩ := st
  obtain ⟨esids, esse, enext⟩ := env
  have h1a : conn = true := h1
  have h2a : sse = some true := h2
  have h3a : osid = some sid := h3
  subst h1a
  subst h2a
  subst h3a
  have hstep : response_step R = RespStep.done (Except.ok R) := by
    unfold response_step
    rw [h5]
  simp only [send_request, send_request_fuel, List.length_cons]
  rw [hstep]
  rfl

/-- C1 counterexample: with a server scripted to answer the invalid-session
error twice and then succeed, the caller observes success after TWO
reconnection cycles and three POSTs carrying three distinct request ids, so
"exactly one reconnection cycle", "re-issues the same envelope" and
"exactly once" are all false of the code: the retry is an unbounded
recursion that rebuilds a fresh envelope each time. -/
theorem c1_counterexample :
    (send_request exIdGen connectedSt baseEnv
      [NetResponse.body invalidSessionBody, NetResponse.body invalidSessionBody,
       NetResponse.body okBody] "tools/list" none 30).reconnects = 2 ∧
    (send_request exIdGen connectedSt baseEnv
      [NetResponse.body invalidSessionBody, NetResponse.body invalidSessionBody,
       NetResponse.body okBody] "tools/list" none 30).result = Except.ok okBody ∧
    (send_request exIdGen connectedSt baseEnv
      [NetResponse.body invalidSessionBody, NetResponse.body invalidSessionBody,
       NetResponse.body okBody] "tools/list" none 30).posts.map
        (fun p => dictGet p.envelope "id") =
      [some (Json.str "req-0"), some (Json.str "req-1"), some (Json.str "req-2")] :=
  ⟨rfl, rfl, rfl⟩

/-- C1 (amended): an invalid-session error (code -32602, message containing
"Invalid session ID") is not surfaced: the client performs one reconnection
cycle obtaining the next granted session id, rebuilds a fresh envelope with
the next generated request id, re-issues it against the new session id, and
the caller observes the outcome of the remaining run - so with a single
invalid-session response followed by a success the caller observes success
after exactly one reconnection cycle and two POSTs; repeated invalid-session
responses repeat the cycle instead of being surfaced. -/
theorem c1_retry_on_invalid_session :
    (∀ (idGen : Nat → String) (st : SessionSt) (env : Env) (rest : List NetResponse)
       (method : String) (params : Option Json) (tmo : Nat) (sid newSid : String)
       (sids2 : List String),
       st.is_connected = true → st.sse_client = some true → st.session_id = some sid →
       env.sids = newSid :: sids2 →
       (send_request idGen st env (NetResponse.body invalidSessionBody :: rest)
           method params tmo).reconnects =
         (send_request idGen
           { st with session_id := some newSid, is_connected := true, sse_client := some true }
           { env with sids := sids2, nextId := env.nextId + 1 } rest method params
           tmo).reconnects + 1 ∧
       (send_request idGen st env (NetResponse.body invalidSessionBody :: rest)
           method params tmo).result =
         (send_request idGen
           { st with session_id := some newSid, is_connected := true, sse_client := some true }
           { env with sids := sids2, nextId := env.nextId + 1 } rest method params tmo).result) ∧
    (∀ (idGen : Nat → String) (st : SessionSt) (env : Env) (rest : List NetResponse)
       (R : Json) (method : String) (params : Option Json) (tmo : Nat) (sid newSid : String)
       (sids2 : List String),
       st.is_connected = true → st.sse_client = some true → st.session_id = some sid →
       env.sids = newSid :: sids2 → pyInJson "error" R = Except.ok false →
       send_request idGen st env
           (NetResponse.body invalidSessionBody :: NetResponse.body R :: rest)
           method params tmo =
         { result := Except.ok R,
           posts := [{ url := st.base_url ++ "/message?sessionId=" ++ sid,
                       envelope := create_jsonrpc_request method params (idGen env.nextId) },
                     { url := st.base_url ++ "/message?sessionId=" ++ newSid,
                       envelope := create_jsonrpc_request method params
                         (idGen (env.nextId + 1)) }],
           reconnects := 1,
           state := { st with session_id := some newSid, is_connected := true,
                              sse_client := some true } }) := by
  constructor
  · intro idGen st env rest method params tmo sid newSid sids2 h1 h2 h3 h4
    rw [send_request_retry_unfold idGen st env rest method params tmo sid newSid sids2
      h1 h2 h3 h4]
    exact ⟨rfl, rfl⟩
  · intro idGen st env rest R method params tmo sid newSid sids2 h1 h2 h3 h4 h5
    rw [send_request_retry_unfold idGen st env (NetResponse.body R :: rest) method params tmo
      sid newSid sids2 h1 h2 h3 h4]
    rw [send_request_ok_response idGen
      { st with session_id := some newSid, is_connected := true, sse_client := some true }
      { env with sids := sids2, nextId := env.nextId + 1 } rest R method params tmo newSid
      rfl rfl rfl h5]

/-- Witness for c1_retry_on_invalid_session at the mocked two-response
server of the claim: the invalid-session error first, success second. -/
theorem c1_retry_on_invalid_session_witness :
    send_request exIdGen connectedSt baseEnv
        [NetResponse.body invalidSessionBody, NetResponse.body okBody] "tools/list" none 30 =
      { result := Except.ok okBody,
        posts := [{ url := "http://server/message?sessionId=sess-1",
                    envelope := create_jsonrpc_request "tools/list" none "req-0" },
                  { url := "http://server/message?sessionId=sess-2",
                    envelope := create_jsonrpc_request "tools/list" none "req-1" }],
        reconnects := 1,
        state := { base_url := "http://server", session_id := some "sess-2",
                   is_connected := true, sse_client := some true } } :=
  c1_retry_on_invalid_session.2 exIdGen connectedSt baseEnv [] okBody "tools/list" none 30
    "sess-1" "sess-2" ["sess-3"] rfl rfl rfl rfl rfl

/-- C3: an RPC request issued while is_connected is false fails immediately
with a SessionError, issues no POST, performs no reconnection, and leaves
the state untouched. -/
theorem c3_fail_fast_guard :
    ∀ (idGen : Nat → String) (st : SessionSt) (env : Env) (net : List NetResponse)
      (method : String) (params : Option Json) (tmo : Nat),
      st.is_connected = false →
      send_request idGen st env net method params tmo =
        { result := Except.error (PyExc.sessionError "Not connected to MCP server"),
          posts := [], reconnects := 0, state := st } := by
  intro idGen st env net method params tmo h
  simp [send_request, send_request_fuel, h]

/-- Witness for c3_fail_fast_guard on the disconnected fixture. -/
theorem c3_fail_fast_guard_witness :
    send_request exIdGen disconnectedSt baseEnv [NetResponse.body okBody] "tools/list" none 30 =
      { result := Except.error (PyExc.sessionError "Not connected to MCP server"),
        posts := [], reconnects := 0, state := disconnectedSt } :=
  c3_fail_fast_guard exIdGen disconnectedSt baseEnv [NetResponse.body okBody] "tools/list"
    none 30 rfl

/-- C6 counterexample: a timed-out request surfaces as a SessionError
("Request timed out after 30s: tools/list"), the same exception class the
not-connected guard raises, not a distinct timeout error type -
exceptions.py defines no TimeoutError class at all. -/
theorem c6_counterexample :
    (send_request exIdGen connectedSt baseEnv [NetResponse.timeout] "tools/list" none
        30).result =
      Except.error (PyExc.sessionError "Request timed out after 30s: tools/list") ∧
    (send_request exIdGen disconnectedSt baseEnv [] "tools/list" none 30).result =
      Except.error (PyExc.sessionError "Not connected to MCP server") :=
  ⟨rfl, rfl⟩

/-- C6 (amended): a request that receives no response within its timeout
raises a SessionError whose message carries the elapsed bound and the
method name, after exactly one POST; the client defines no distinct
TimeoutError type, so the timeout is not distinguishable from other
session errors by type. -/
theorem c6_timeout_error :
    ∀ (idGen : Nat → String) (st : SessionSt) (env : Env) (rest : List NetResponse)
      (method : String) (params : Option Json) (tmo : Nat) (sid : String),
      st.is_connected = true → st.sse_client = some true → st.session_id = some sid →
      (send_request idGen st env (NetResponse.timeout :: rest) method params tmo).result =
        Except.error (PyExc.sessionError
          ("Request timed out after " ++ toString tmo ++ "s: " ++ method)) ∧
      (send_request idGen st env
          (NetResponse.timeout :: rest) method params tmo).posts.length = 1 := by
  intro idGen st env rest method params tmo sid h1 h2 h3
  obtain ⟨burl, osid, conn, sse⟩ := st
  obtain ⟨esids, esse, enext⟩ := env
  have h1a : conn = true := h1
  have h2a : sse = some true := h2
  have h3a : osid = some sid := h3
  subst h1a
  subst h2a
  subst h3a
  exact ⟨rfl, rfl⟩

/-- Witness for c6_timeout_error on the connected fixture. -/
theorem c6_timeout_error_witness :
    (send_request exIdGen connectedSt baseEnv [NetResponse.timeout] "tools/list" none
        30).result =
      Except.error (PyExc.sessionError
        ("Request timed out after " ++ toString 30 ++ "s: " ++ "tools/list")) ∧
    (send_request exIdGen connectedSt baseEnv
        [NetResponse.timeout] "tools/list" none 30).posts.length = 1 :=
  c6_timeout_error exIdGen connectedSt baseEnv [] "tools/list" none 30 "sess-1" rfl rfl rfl

theorem dictGet_id_envelope (method : String) (params : Option Json) (rid : String) :
    dictGet (create_jsonrpc_request method params rid) "id" = some (Json.str rid) := by
  cases params <;> rfl

theorem send_request_fuel_posts_ids (idGen : Nat → String) :
    ∀ (fuel : Nat) (st : SessionSt) (env : Env) (net : List NetResponse)
      (method : String) (params : Option Json) (tmo : Nat),
      (send_request_fuel idGen fuel st env net method params tmo).posts.map
          (fun p => dictGet p.envelope "id") =
        (List.range
            (send_request_fuel idGen fuel st env net method params tmo).posts.length).map
          (fun k => some (Json.str (idGen (env.nextId + k)))) := by
  intro fuel
  induction fuel with
  | zero => intro st env net method params tmo; rfl
  | succ fuel ih =>
    intro st env net method params tmo
    simp only [send_request_fuel]
    repeat' split
    all_goals first
      | rfl
      | (simp [dictGet_id_envelope, List.range_succ]
         done)
      | (rw [List.map_cons, ih, List.length_cons, List.range_succ_eq_map, List.map_cons,
           List.map_map]
         congr 1
         · simp [dictGet_id_envelope]
         · apply List.map_congr_left
           intro k hk
           simp only [Function.comp_apply, Option.some.injEq, Json.str.injEq]
           congr 1
           dsimp only
           omega)

theorem send_request_first_post (idGen : Nat → String) (st : SessionSt) (env : Env)
    (r : NetResponse) (rest : List NetResponse) (method : String) (params : Option Json)
    (tmo : Nat) (sid : String)
    (h1 : st.is_connected = true) (h2 : st.sse_client = some true)
    (h3 : st.session_id = some sid) :
    (send_request idGen st env (r :: rest) method params tmo).posts.head? =
      some { url := st.base_url ++ "/message?sessionId=" ++ sid,
             envelope := create_jsonrpc_request method params (idGen env.nextId) } := by
  obtain ⟨burl, osid, conn, sse⟩ := st
  obtain ⟨esids, esse, enext⟩ := env
  have h1a : conn = true := h1
  have h2a : sse = some true := h2
  have h3a : osid = some sid := h3
  subst h1a
  subst h2a
  subst h3a
  cases r with
  | timeout => rfl
  | clientError m => rfl
  | badJson t => rfl
  | body resp =>
    simp only [send_request, send_request_fuel, List.length_cons]
    cases hy : response_step resp with
    | done res => rfl
    | retry =>
      cases esids with
      | nil => rfl
      | cons ns rest2 => rfl

/-- A trivially injective id supply for the uniqueness witness. -/
def repIdGen : Nat → String := fun n => String.mk (List.replicate n 'a')

theorem repIdGen_injective : Function.Injective repIdGen := by
  intro a b h
  have h2 : (List.replicate a 'a').length = (List.replicate b 'a').length := by
    rw [show List.replicate a 'a' = List.replicate b 'a' from congrArg String.data h]
  simpa using h2

/-- C9: the RPC envelope is exactly the dict with the jsonrpc field of
value "2.0", the freshly generated id, the given method, and a params
field present exactly when params were supplied; it is POSTed to
baseAddress ++ "/message?sessionId=" ++ sessionId; and with an injective
id stream (uuid4 uniqueness) the ids of all POSTs of one send are pairwise
distinct, each drawn fresh from the stream. -/
theorem c9_envelope :
    (∀ (method : String) (params : Option Json) (rid : String),
       create_jsonrpc_request method params rid =
         [("jsonrpc", Json.str "2.0"), ("id", Json.str rid), ("method", Json.str method)]
           ++ (match params with
               | some p => [("params", p)]
               | none => []) ∧
       dictGet (create_jsonrpc_request method params rid) "params" = params ∧
       dictGet (create_jsonrpc_request method params rid) "id" = some (Json.str rid) ∧
       dictGet (create_jsonrpc_request method params rid) "jsonrpc" =
         some (Json.str "2.0") ∧
       dictGet (create_jsonrpc_request method params rid) "method" =
         some (Json.str method)) ∧
    (∀ (idGen : Nat → String) (st : SessionSt) (env : Env) (r : NetResponse)
       (rest : List NetResponse) (method : String) (params : Option Json) (tmo : Nat)
       (sid : String),
       st.is_connected = true → st.sse_client = some true → st.session_id = some sid →
       (send_request idGen st env (r :: rest) method params tmo).posts.head? =
         some { url := st.base_url ++ "/message?sessionId=" ++ sid,
                envelope := create_jsonrpc_request method params (idGen env.nextId) }) ∧
    (∀ (idGen : Nat → String) (st : SessionSt) (env : Env) (net : List NetResponse)
       (method : String) (params : Option Json) (tmo : Nat),
       Function.Injective idGen →
       ((send_request idGen st env net method params tmo).posts.map
          (fun p => dictGet p.envelope "id")).Nodup) := by
  refine ⟨?_, ?_, ?_⟩
  · intro method params rid
    cases params <;> exact ⟨rfl, rfl, rfl, rfl, rfl⟩
  · intro idGen st env r rest method params tmo sid h1 h2 h3
    exact send_request_first_post idGen st env r rest method params tmo sid h1 h2 h3
  · intro idGen st env net method params tmo hinj
    rw [show send_request idGen st env net method params tmo =
      send_request_fuel idGen (net.length + 1) st env net method params tmo from rfl]
    rw [send_request_fuel_posts_ids]
    apply List.Nodup.map
    · intro a b hab
      simp only [Option.some.injEq, Json.str.injEq] at hab
      have h4 := hinj hab
      omega
    · exact List.nodup_range _

/-- Witness for c9_envelope at a concrete tools/call send. -/
theorem c9_envelope_witness :
    create_jsonrpc_request "tools/call" (some (Json.obj [("name", Json.str "x")])) "rid-7" =
      [("jsonrpc", Json.str "2.0"), ("id", Json.str "rid-7"),
       ("method", Json.str "tools/call")]
        ++ [("params", Json.obj [("name", Json.str "x")])] ∧
    (send_request exIdGen connectedSt baseEnv [NetResponse.body okBody] "tools/call"
        (some (Json.obj [("name", Json.str "x")])) 30).posts.head? =
      some { url := "http://server" ++ "/message?sessionId=" ++ "sess-1",
             envelope := create_jsonrpc_request "tools/call"
               (some (Json.obj [("name", Json.str "x")])) (exIdGen 0) } ∧
    ((send_request repIdGen connectedSt baseEnv
        [NetResponse.body invalidSessionBody, NetResponse.body okBody] "tools/call"
        (some (Json.obj [("name", Json.str "x")])) 30).posts.map
        (fun p => dictGet p.envelope "id")).Nodup :=
  ⟨(c9_envelope.1 "tools/call" (some (Json.obj [("name", Json.str "x")])) "rid-7").1,
   c9_envelope.2.1 exIdGen connectedSt baseEnv (NetResponse.body okBody) [] "tools/call"
     (some (Json.obj [("name", Json.str "x")])) 30 "sess-1" rfl rfl rfl,
   c9_envelope.2.2 repIdGen connectedSt baseEnv
     [NetResponse.body invalidSessionBody, NetResponse.body okBody] "tools/call"
     (some (Json.obj [("name", Json.str "x")])) 30 repIdGen_injective⟩

/-- Python min of two rationals (min(a, b), returning the first on ties). -/
def pyMin (a b : Rat) : Rat := if b < a then b else a

/-- Delay computed at session.py:189 before reconnection attempt k (k is
_reconnect_count after its increment, so 1-based):
min(30, _reconnect_delay * 2 ** (k - 1)); _reconnect_delay defaults to 1.0
and the cap is the literal 30 seconds. -/
def reconnect_delay (base : Rat) (k : Nat) : Rat := pyMin 30 (base * 2 ^ (k - 1))

/-- The reconnection loop of AsyncSSEClient._connect_and_process
(session.py:186-205) under a scenario of consecutive connection failures:
on each failure, while _reconnect_count < _max_reconnect_attempts the
count is incremented and the backoff delay is slept before the next
attempt; once the budget is reached the policy gives up.  The first Nat
argument counts the scripted consecutive failures; the source defaults
are maxAttempts = 5 (_max_reconnect_attempts) and base = 1
(_reconnect_delay). -/
def delaysAfterFailures (base : Rat) (maxAttempts : Nat) : Nat → Nat → List Rat
  | 0, _ => []
  | failures + 1, count =>
    if count < maxAttempts then
      reconnect_delay base (count + 1) ::
        delaysAfterFailures base maxAttempts failures (count + 1)
    else []

theorem delaysAfterFailures_get (base : Rat) (maxA : Nat) :
    ∀ (f count n : Nat),
      (delaysAfterFailures base maxA f count)[n]? =
        if n < f ∧ count + n < maxA then some (reconnect_delay base (count + n + 1))
        else none := by
  intro f
  induction f with
  | zero =>
    intro count n
    simp [delaysAfterFailures]
  | succ f ih =>
    intro count n
    by_cases hc : count < maxA
    · simp only [delaysAfterFailures, hc, if_true]
      cases n with
      | zero => simp [hc]
      | succ n =>
        rw [List.getElem?_cons_succ, ih (count + 1) n]
        by_cases h1 : n < f ∧ count + 1 + n < maxA
        · rw [if_pos h1, if_pos (show n + 1 < f + 1 ∧ count + (n + 1) < maxA by omega)]
          congr 2
          omega
        · rw [if_neg h1, if_neg (show ¬(n + 1 < f + 1 ∧ count + (n + 1) < maxA) by omega)]
    · simp only [delaysAfterFailures, hc, if_false]
      rw [List.getElem?_nil, if_neg (by omega)]

theorem delaysAfterFailures_length (base : Rat) (maxA : Nat) :
    ∀ (f count : Nat),
      (delaysAfterFailures base maxA f count).length = min f (maxA - count) := by
  intro f
  induction f with
  | zero =>
    intro count
    simp [delaysAfterFailures]
  | succ f ih =>
    intro count
    by_cases hc : count < maxA
    · simp only [delaysAfterFailures, hc, if_true, List.length_cons, ih]
      omega
    · simp only [delaysAfterFailures, hc, if_false, List.length_nil]
      omega

/-- C4: for every reconnection attempt n (1-based index n+1 here) within
both the failure scenario and the attempt budget, the delay before the
attempt equals min(30, base * 2^n) for the n-th retry after the first;
with base 1 the successive delay values are 1, 2, 4, 8, 16, 30, 30
(capped), the source budget of 5 attempts yields 1, 2, 4, 8, 16, and the
policy performs no further attempt once the count reaches maxAttempts, so
at most maxAttempts delays ever occur. -/
theorem c4_backoff :
    (∀ (base : Rat) (maxA f n : Nat), n < f → n < maxA →
       (delaysAfterFailures base maxA f 0)[n]? = some (pyMin 30 (base * 2 ^ n))) ∧
    delaysAfterFailures 1 7 10 0 = [1, 2, 4, 8, 16, 30, 30] ∧
    delaysAfterFailures 1 5 10 0 = [1, 2, 4, 8, 16] ∧
    (∀ (base : Rat) (maxA f : Nat), (delaysAfterFailures base maxA f 0).length ≤ maxA) ∧
    (∀ (base : Rat) (maxA f count : Nat), maxA ≤ count →
       delaysAfterFailures base maxA f count = []) := by
  refine ⟨?_, ?_, ?_, ?_, ?_⟩
  · intro base maxA f n hf hm
    rw [delaysAfterFailures_get, if_pos (by omega)]
    have hidx : 0 + n + 1 - 1 = n := by omega
    unfold reconnect_delay
    rw [hidx]
  · norm_num [delaysAfterFailures, reconnect_delay, pyMin]
  · norm_num [delaysAfterFailures, reconnect_delay, pyMin]
  · intro base maxA f
    rw [delaysAfterFailures_length]
    omega
  · intro base maxA f count h
    cases f with
    | zero => rfl
    | succ f =>
      simp only [delaysAfterFailures]
      rw [if_neg (by omega)]

/-- Witness for c4_backoff at the source configuration (base 1, budget 5):
the third delay is min(30, 4) and the budget bounds hold. -/
theorem c4_backoff_witness :
    (delaysAfterFailures 1 5 10 0)[2]? = some (pyMin 30 (1 * 2 ^ 2)) ∧
    (delaysAfterFailures 1 5 10 0).length ≤ 5 ∧
    delaysAfterFailures 1 5 10 5 = [] :=
  ⟨c4_backoff.1 1 5 10 2 (by omega) (by omega),
   c4_backoff.2.2.2.1 1 5 10,
   c4_backoff.2.2.2.2 1 5 10 5 (by omega)⟩

/-- Inner state of an AsyncSSEClient as relevant to closing: its
is_connected and _keep_running flags, and whether its close() call would
raise (the task cancellation and cleanup scheduling of session.py:302-317
can fail; MCPSession.close catches that). -/
structure SSEClientModel where
  is_connected : Bool
  keep_running : Bool
  closeRaises : Bool

/-- AsyncSSEClient.close (session.py:302-317): stop the processing loop
flag and mark the client disconnected; a failure while cancelling the task
or scheduling the cleanup surfaces as an exception, modelled by the
closeRaises flag. -/
def sse_close (c : SSEClientModel) : Except String SSEClientModel :=
  if c.closeRaises then Except.error "Error closing SSE connection"
  else Except.ok { c with keep_running := false, is_connected := false }

/-- State of an MCPSession as relevant to close (session.py:649-663). -/
structure MCPSession where
  is_connected : Bool
  is_initialized : Bool
  sse_client : Option SSEClientModel

/-- MCPSession.close (session.py:649-663): clear the connection and
initialization flags; if an SSE client exists, close it with any exception
caught and logged (the try/except of lines 655-660), and drop the
reference.  The translation is a total function: no branch raises. -/
def MCPSession.close (s : MCPSession) : MCPSession :=
  let s2 : MCPSession := { s with is_connected := false, is_initialized := false }
  match s2.sse_client with
  | some c =>
    match sse_close c with
    | Except.ok _ => { s2 with sse_client := none }
    | Except.error _ => { s2 with sse_client := none }
  | none => s2

/-- Closed state of the spec state machine in terms of the session fields:
disconnected, uninitialized, and no SSE client held. -/
def isClosed (s : MCPSession) : Prop :=
  s.is_connected = false ∧ s.is_initialized = false ∧ s.sse_client = none

/-- C5: close() never throws (its translation is a total function on all
session states, the SSE client close exception being caught inside), it is
idempotent, and it leaves the session in the Closed state after the first
and after the second call, from every starting state including an
already-closed one. -/
theorem c5_close_idempotent :
    ∀ s : MCPSession,
      MCPSession.close (MCPSession.close s) = MCPSession.close s ∧
      isClosed (MCPSession.close s) ∧
      isClosed (MCPSession.close (MCPSession.close s)) := by
  intro s
  obtain ⟨c1, c2, sse⟩ := s
  cases sse with
  | none => exact ⟨rfl, ⟨rfl, rfl, rfl⟩, ⟨rfl, rfl, rfl⟩⟩
  | some c =>
    cases hc : c.closeRaises <;>
      simp [MCPSession.close, sse_close, isClosed, hc]

/-- A stream event as queued by AsyncSSEClient (session.py:145-150): last
event id, event type, payload data; the wall-clock timestamp field is not
modelled. -/
structure StreamEvent where
  evId : Option String
  event : String
  data : String

/-- MCPSession.register_event_handler (session.py:624-632): store or
overwrite the handler for an event type in the _event_handlers dict; the
wildcard key is the literal "*".  A handler is modelled as a function from
the event data to either a normal return or a raised exception message. -/
def register_event_handler (handlers : String → Option (String → Except String Unit))
    (event_type : String) (h : String → Except String Unit) :
    String → Option (String → Except String Unit) :=
  fun t => if t = event_type then some h else handlers t

/-- Identity of the handler invoked by the dispatch loop: the handler
registered for the exact event type, or the wildcard handler. -/
inductive HandlerKind where
  | specific (event_type : String) : HandlerKind
  | wildcard : HandlerKind
deriving DecidableEq

/-- One handler invocation of the dispatch loop with its try/except
(session.py:466-479): when a handler is registered, it is invoked and the
given invocation record is produced whether it returns or raises - the
exception is caught and logged, so both branches continue identically;
without a registration nothing happens. -/
def invoke_handler (o : Option (String → Except String Unit)) (d : String)
    (call : List (HandlerKind × String)) : List (HandlerKind × String) :=
  match o with
  | some h =>
    match h d with
    | Except.ok _ => call
    | Except.error _ => call
  | none => []

/-- The dispatch loop body of MCPSession._start_event_processing
(session.py:454-499) applied to the events drained from the queue in
order: each event is appended to _received_events, then the handler
registered for its exact type is invoked, then the wildcard handler, each
through invoke_handler so that a raising handler cannot stop the loop.
Returns the received events and the invocations in order. -/
def process_events (handlers : String → Option (String → Except String Unit)) :
    List StreamEvent → List StreamEvent × List (HandlerKind × String)
  | [] => ([], [])
  | ev :: rest =>
    let specificCalls : List (HandlerKind × String) :=
      invoke_handler (handlers ev.event) ev.data [(HandlerKind.specific ev.event, ev.data)]
    let wildcardCalls : List (HandlerKind × String) :=
      invoke_handler (handlers "*") ev.data [(HandlerKind.wildcard, ev.data)]
    let r := process_events handlers rest
    (ev :: r.1, specificCalls ++ wildcardCalls ++ r.2)

/-- C7: with a wildcard handler registered, the wildcard invocations record
the event payloads exactly in queue order, whatever per-type handlers are
registered and even when handlers raise. -/
theorem c7_event_order :
    ∀ (handlers : String → Option (String → Except String Unit))
      (evs : List StreamEvent) (h : String → Except String Unit),
      handlers "*" = some h →
      ((process_events handlers evs).2.filter
          (fun c => c.1 = HandlerKind.wildcard)).map Prod.snd =
        evs.map StreamEvent.data := by
  intro handlers evs h hw
  induction evs with
  | nil => rfl
  | cons ev rest ih =>
    cases hse : handlers ev.event with
    | none =>
      cases hwd : h ev.data <;>
        simp [process_events, invoke_handler, hse, hw, hwd, List.filter_append, ih]
    | some hh =>
      cases hsd : hh ev.data <;> cases hwd : h ev.data <;>
        simp [process_events, invoke_handler, hse, hw, hsd, hwd, List.filter_append, ih]

/-- Empty handler registry (the initial _event_handlers dict). -/
def noneHandlers : String → Option (String → Except String Unit) := fun _ => none

/-- A handler that always raises. -/
def raisingHandler : String → Except String Unit := fun _ => Except.error "handler boom"

/-- A handler that always returns normally. -/
def okHandler : String → Except String Unit := fun _ => Except.ok ()

/-- Event fixture A. -/
def evA : StreamEvent := { evId := none, event := "message", data := "A" }

/-- Event fixture B. -/
def evB : StreamEvent := { evId := none, event := "message", data := "B" }

/-- Event fixture C. -/
def evC : StreamEvent := { evId := none, event := "ping", data := "C" }

/-- Witness for c7_event_order: events A, B, C with a raising per-type
handler registered besides the wildcard handler. -/
theorem c7_event_order_witness :
    ((process_events (register_event_handler
        (register_event_handler noneHandlers "message" raisingHandler) "*" okHandler)
        [evA, evB, evC]).2.filter
        (fun c => c.1 = HandlerKind.wildcard)).map Prod.snd =
      [evA, evB, evC].map StreamEvent.data :=
  c7_event_order (register_event_handler
    (register_event_handler noneHandlers "message" raisingHandler) "*" okHandler)
    [evA, evB, evC] okHandler rfl

theorem invoke_trace_eq (o1 o2 : Option (String → Except String Unit))
    (d : String) (call : List (HandlerKind × String)) (hso : o1.isSome = o2.isSome) :
    invoke_handler o1 d call = invoke_handler o2 d call := by
  cases o1 with
  | none =>
    cases o2 with
    | none => rfl
    | some b => simp at hso
  | some a =>
    cases o2 with
    | none => simp at hso
    | some b =>
      cases ha : a d <;> cases hb : b d <;> simp [invoke_handler, ha, hb]

/-- C8: the dispatch loop is total and its whole observable behaviour -
every event appended to the history and the handlers invoked in order -
depends only on which handlers are registered, never on whether they
raise: a raising handler is caught and logged, the remaining handlers and
events are still dispatched identically, and no exception propagates out
of the loop to the reader or to RPC callers (the result type carries
none). -/
theorem c8_handler_isolation :
    ∀ (h1 h2 : String → Option (String → Except String Unit)) (evs : List StreamEvent),
      (∀ t, (h1 t).isSome = (h2 t).isSome) →
      process_events h1 evs = process_events h2 evs ∧
      (process_events h1 evs).1 = evs := by
  intro h1 h2 evs hsame
  have recv : ∀ (h : String → Option (String → Except String Unit))
      (evs2 : List StreamEvent), (process_events h evs2).1 = evs2 := by
    intro h evs2
    induction evs2 with
    | nil => rfl
    | cons ev rest ih => simp [process_events, ih]
  have main : process_events h1 evs = process_events h2 evs := by
    induction evs with
    | nil => rfl
    | cons ev rest ih =>
      simp only [process_events, ih]
      rw [invoke_trace_eq (h1 ev.event) (h2 ev.event) ev.data
        [(HandlerKind.specific ev.event, ev.data)] (hsame ev.event)]
      rw [invoke_trace_eq (h1 "*") (h2 "*") ev.data
        [(HandlerKind.wildcard, ev.data)] (hsame "*")]
  exact ⟨main, recv h1 evs⟩

/-- Witness for c8_handler_isolation: always-raising handlers against
always-returning handlers on events A, B, C. -/
theorem c8_handler_isolation_witness :
    process_events (register_event_handler
        (register_event_handler noneHandlers "message" raisingHandler) "*" raisingHandler)
        [evA, evB, evC] =
      process_events (register_event_handler
        (register_event_handler noneHandlers "message" okHandler) "*" okHandler)
        [evA, evB, evC] ∧
    (process_events (register_event_handler
        (register_event_handler noneHandlers "message" raisingHandler) "*" raisingHandler)
        [evA, evB, evC]).1 = [evA, evB, evC] :=
  c8_handler_isolation
    (register_event_handler
      (register_event_handler noneHandlers "message" raisingHandler) "*" raisingHandler)
    (register_event_handler
      (register_event_handler noneHandlers "message" okHandler) "*" okHandler)
    [evA, evB, evC]
    (fun t => by
      unfold register_event_handler noneHandlers
      by_cases hA : t = "*" <;> by_cases hB : t = "message" <;> simp [hA, hB])
